import Mathlib

/-
Shallow embedding of the Paymenter python backend extension subsystem:
  app/extensions/base.py      (BaseExtension, ServerExtension, GatewayExtension, OtherExtension)
  app/extensions/loader.py    (ExtensionManager)
  app/api/v1/endpoints/extensions.py (query endpoints)
  app/extensions/servers/Proxmox/proxmox.py (Proxmox.terminate)
  app/extensions/gateways/Stripe/stripe.py  (Stripe.webhook, metadata, config schema)

Python dictionaries are modelled as ordered association lists; dictionaries
that the program mutates or aliases (the per-instance `_config` mapping) live
in an explicit heap of cells addressed by natural-number references, so that
python object identity and aliasing are represented faithfully.
-/

/-- Model of a python runtime value (the subset the extension code handles):
strings, ints, booleans, None, lists and string-keyed dicts. -/
inductive Value where
  | str (s : String)
  | int (n : Int)
  | bool (b : Bool)
  | null
  | list (vs : List Value)
  | dict (kvs : List (String × Value))

/-- Python `dict` with string keys, as an ordered association list
(insertion order preserved, as in python 3.7+). -/
abbrev Dict := List (String × Value)

/-- Association-list lookup: python `d[k]` / `d.get(k)` returning the value of
the first (and, under `strSet` updates, only) entry with key `k`. -/
def strGet {α : Type} (d : List (String × α)) (k : String) : Option α :=
  (d.find? (fun kv => kv.1 == k)).map (fun kv => kv.2)

/-- Python `d.get(k, default)`. -/
def strGetD {α : Type} (d : List (String × α)) (k : String) (default : α) : α :=
  (strGet d k).getD default

/-- Python `d[k] = v`: update the existing entry in place, else append
(python dicts keep the insertion position of an updated key). -/
def strSet {α : Type} : List (String × α) → String → α → List (String × α)
  | [], k, v => [(k, v)]
  | (k1, v1) :: rest, k, v =>
      if k1 == k then (k, v) :: rest else (k1, v1) :: strSet rest k v

/-- Python truthiness (`bool(v)`) for the modelled values: empty string,
zero, False, None and empty containers are falsy. -/
def Value.truthy : Value → Bool
  | .str s => !(s == "")
  | .int n => !(n == 0)
  | .bool b => b
  | .null => false
  | .list vs => !vs.isEmpty
  | .dict kvs => !kvs.isEmpty

/-- Python `str(v)` for the scalar values the code interpolates into
f-strings (the container cases are never interpolated by the modelled code). -/
def Value.pyStr : Value → String
  | .str s => s
  | .int n => toString n
  | .bool b => if b then "True" else "False"
  | .null => "None"
  | .list _ => "[...]"
  | .dict _ => "\x7b...\x7d"

/-- Python `v == s` where `s` is a string literal: equal only when `v` is a
string with the same contents (cross-type `==` is False in python). -/
def Value.eqStr (v : Value) (s : String) : Bool :=
  match v with
  | .str t => t == s
  | _ => false

/-- Python `s.lower()` (ASCII case folding, which covers every name the
repository uses). -/
def pyLower (s : String) : String := ⟨s.data.map Char.toLower⟩

/-- Heap of mutable python dict objects; a reference is an index into the
cell list.  Fresh dicts are appended, so references are never reused. -/
structure Heap where
  cells : List Dict

/-- Dereference: read the dict object behind reference `r`. -/
def Heap.get (h : Heap) (r : Nat) : Dict := h.cells.getD r []

/-- Allocate a fresh dict object; returns the extended heap and the new
reference. -/
def Heap.alloc (h : Heap) (d : Dict) : Heap × Nat :=
  (⟨h.cells ++ [d]⟩, h.cells.length)

/-- Overwrite the dict object behind reference `r` (models in-place mutation
of a python dict through any alias of it). -/
def Heap.set (h : Heap) (r : Nat) (d : Dict) : Heap := ⟨h.cells.set r d⟩

/-- Model of a python exception, by class: bare `Exception(msg)`,
`ValueError`, `NotImplementedError` and `AttributeError` are the classes the
modelled code can raise; the constructor distinguishes them the way
`except SomeClass` does. -/
inductive PyExc where
  | exception (msg : String)
  | valueError (msg : String)
  | notImplementedError (msg : String)
  | attributeError (msg : String)

/-- The three concrete extension classes shipped in the repository:
servers/Proxmox, gateways/Stripe, others/DiscordNotifications. -/
inductive ExtClass where
  | proxmox
  | stripe
  | discordNotifications
  deriving DecidableEq

/-- A constructed extension instance (`extension_class(config or \x7b\x7d)`):
its class and the reference to the `_config` dict object bound by
`BaseExtension.__init__`. -/
structure ExtInstance where
  cls : ExtClass
  configRef : Nat

/-- BaseExtension.config: `self._config.get(key, default)` read through the
instance's bound dict object. -/
def ExtInstance.config (i : ExtInstance) (h : Heap) (key : String) (default : Value) : Value :=
  strGetD (h.get i.configRef) key default

/-- Python `config or \x7b\x7d` where `config` is an optional dict reference:
keep the reference when it points to a truthy (non-empty) dict, otherwise
allocate a fresh empty dict.  Used once at the `extension_class(config or ...)`
call site in `get_extension` and once in `BaseExtension.__init__`. -/
def pyOrFreshEmpty (h : Heap) (config : Option Nat) : Heap × Nat :=
  match config with
  | some r => if (h.get r).isEmpty then h.alloc [] else (h, r)
  | none => h.alloc []

/-- One attribute of an imported extension module, classified the way the
discovery loop in `ExtensionManager._load_category` tests it:
`extClass c` stands for an attribute that is a type, a subclass of
`BaseExtension` and not one of the four abstract base classes; `abstractBase`
is one of `BaseExtension`/`ServerExtension`/`GatewayExtension`/`OtherExtension`
(a type and a subclass, but excluded); `other` is anything else (imported
modules, typing aliases, functions, dunder attributes, ...). -/
inductive PyAttr where
  | extClass (c : ExtClass)
  | abstractBase
  | other

/-- One entry of `os.listdir(category_path)`: its name, whether it is a
directory, and the result of importing
`app.extensions.{category}.{item}.{item.lower()}` — either the module's
attribute list in `dir(module)` order, or an `ImportError`/`AttributeError`
message. -/
structure DirItem where
  name : String
  isDir : Bool
  imported : Except String (List (String × PyAttr))

/-- The filesystem environment discovery runs against: for each category
directory path, `none` when `os.path.exists` is false, otherwise the
`os.listdir` listing. -/
abbrev Env := String → Option (List DirItem)

/-- The `for attr_name in dir(module)` loop body: return the first attribute
satisfying `isinstance(attr, type) and issubclass(attr, BaseExtension) and
attr not in [BaseExtension, ServerExtension, GatewayExtension,
OtherExtension]` (the loop breaks at the first hit). -/
def findExtensionClass : List (String × PyAttr) → Option ExtClass
  | [] => none
  | (_, PyAttr.extClass c) :: _ => some c
  | _ :: rest => findExtensionClass rest

/-- Processing of one `os.listdir` item by `_load_category`: skip names
starting with `__` and non-directories; on import failure print a warning and
skip; otherwise insert the first matching class under the lowercased item
name (`self._extensions[category][item.lower()] = attr`), or leave the index
unchanged when the module has no matching class. -/
def loadItem (idx : List (String × ExtClass)) (item : DirItem) : List (String × ExtClass) :=
  if List.isPrefixOf "__".data item.name.data || !item.isDir then idx
  else
    match item.imported with
    | .error _ => idx
    | .ok attrs =>
        match findExtensionClass attrs with
        | some cls => strSet idx (pyLower item.name) cls
        | none => idx

/-- The registry's `self._extensions` mapping.  Its key set is fixed by
`ExtensionManager.__init__` to exactly servers/gateways/others (in that
insertion order) and no code path ever adds or removes an outer key, so it is
modelled as a record with one field per category. -/
structure ExtIndex where
  servers : List (String × ExtClass)
  gateways : List (String × ExtClass)
  others : List (String × ExtClass)

/-- Python `self._extensions.get(category, \x7b\x7d)`: the category's inner
dict, or an empty one for an unknown key. -/
def ExtIndex.get (idx : ExtIndex) (category : String) : List (String × ExtClass) :=
  if category == "servers" then idx.servers
  else if category == "gateways" then idx.gateways
  else if category == "others" then idx.others
  else []

/-- Python `self._extensions.items()`, in the insertion order fixed by
`__init__`. -/
def ExtIndex.items (idx : ExtIndex) : List (String × List (String × ExtClass)) :=
  [("servers", idx.servers), ("gateways", idx.gateways), ("others", idx.others)]

/-- Replace one category's inner dict (the effect of `_load_category` writing
through `self._extensions[category]`; only the three keys present since
`__init__` are ever used). -/
def ExtIndex.setCat (idx : ExtIndex) (category : String) (entries : List (String × ExtClass)) : ExtIndex :=
  if category == "servers" then { idx with servers := entries }
  else if category == "gateways" then { idx with gateways := entries }
  else if category == "others" then { idx with others := entries }
  else idx

/-- ExtensionManager state: the category-indexed name index `_extensions` and
the `_loaded` flag. -/
structure ExtensionManager where
  extensions : ExtIndex
  loaded : Bool

/-- ExtensionManager.__init__: three empty category dicts, not yet loaded. -/
def ExtensionManager.init : ExtensionManager :=
  { extensions := { servers := [], gateways := [], others := [] }, loaded := false }

/-- ExtensionManager._load_category: return unchanged when the category path
does not exist, otherwise fold the listdir items through `loadItem`. -/
def load_category (env : Env) (idx : ExtIndex) (category : String) : ExtIndex :=
  match env category with
  | none => idx
  | some items => idx.setCat category (items.foldl loadItem (idx.get category))

/-- ExtensionManager.load_extensions: a no-op once `_loaded` is set;
otherwise one discovery pass over the three categories, then set `_loaded`.
The returned number counts the discovery passes this call performed (0 or 1),
the counter the idempotence property is stated over. -/
def load_extensions (env : Env) (m : ExtensionManager) : ExtensionManager × Nat :=
  if m.loaded then (m, 0)
  else
    let e1 := load_category env m.extensions "servers"
    let e2 := load_category env e1 "gateways"
    let e3 := load_category env e2 "others"
    ({ extensions := e3, loaded := true }, 1)

/-- ExtensionManager.get_extension: trigger `load_extensions` when not yet
loaded, look the lowercased name up in the category's dict
(`self._extensions.get(category, \x7b\x7d).get(name.lower())`), and on a hit
construct a fresh instance `extension_class(config or \x7b\x7d)` whose
`__init__` stores `self._config = config or \x7b\x7d`; on a miss return
`None`. -/
def get_extension (env : Env) (m : ExtensionManager) (h : Heap)
    (category name : String) (config : Option Nat) :
    ExtensionManager × Heap × Option ExtInstance :=
  let m1 := if m.loaded then m else (load_extensions env m).1
  match strGet (m1.extensions.get category) (pyLower name) with
  | some cls =>
      let p1 := pyOrFreshEmpty h config
      let p2 := pyOrFreshEmpty p1.1 (some p1.2)
      (m1, p2.1, some { cls := cls, configRef := p2.2 })
  | none => (m1, h, none)

/-- ExtensionManager.list_extensions: trigger `load_extensions` when not yet
loaded; `if category:` (python truthiness, so `None` and the empty string
both fall through) return the single-entry mapping for that category, else
the name lists of all three categories in insertion order. -/
def list_extensions (env : Env) (m : ExtensionManager) (category : Option String) :
    ExtensionManager × List (String × List String) :=
  let m1 := if m.loaded then m else (load_extensions env m).1
  let allCats := m1.extensions.items.map (fun p => (p.1, p.2.map (fun e => e.1)))
  match category with
  | some c => if c == "" then (m1, allCats)
              else (m1, [(c, (m1.extensions.get c).map (fun e => e.1))])
  | none => (m1, allCats)

/-- Proxmox.get_metadata (the method reads nothing from `self`). -/
def Proxmox.get_metadata (_self : ExtInstance) (_h : Heap) : Value :=
  .dict [("name", .str "Proxmox VE"),
         ("description", .str "Proxmox Virtual Environment server integration"),
         ("version", .str "1.0.0"),
         ("author", .str "Paymenter"),
         ("type", .str "server")]

/-- Proxmox.get_config: the literal schema list returned by the method (the
`values` argument and `self` are unused by the source). -/
def Proxmox.get_config (_self : ExtInstance) (_h : Heap) (_values : Option Value) : Value :=
  .list
    [.dict [("name", .str "host"), ("type", .str "text"),
            ("label", .str "Proxmox Host"),
            ("description", .str "Proxmox server hostname or IP address"),
            ("required", .bool true)],
     .dict [("name", .str "port"), ("type", .str "number"),
            ("label", .str "Port"),
            ("description", .str "Proxmox API port (default: 8006)"),
            ("default", .int 8006), ("required", .bool true)],
     .dict [("name", .str "username"), ("type", .str "text"),
            ("label", .str "API Token ID"),
            ("description", .str "Proxmox API Token ID (e.g., user@pam!tokenid)"),
            ("required", .bool true)],
     .dict [("name", .str "password"), ("type", .str "password"),
            ("label", .str "API Token Secret"),
            ("description", .str "Proxmox API Token Secret"),
            ("required", .bool true)],
     .dict [("name", .str "node"), ("type", .str "text"),
            ("label", .str "Node Name"),
            ("description", .str "Proxmox node name to create VMs on"),
            ("required", .bool true)],
     .dict [("name", .str "storage"), ("type", .str "text"),
            ("label", .str "Storage"),
            ("description", .str "Storage location for VM disks"),
            ("required", .bool true)],
     .dict [("name", .str "bridge"), ("type", .str "text"),
            ("label", .str "Network Bridge"),
            ("description", .str "Network bridge name (e.g., vmbr0)"),
            ("default", .str "vmbr0"), ("required", .bool true)]]

/-- Stripe.get_metadata (the method reads nothing from `self`). -/
def Stripe.get_metadata (_self : ExtInstance) (_h : Heap) : Value :=
  .dict [("name", .str "Stripe"),
         ("description", .str "Stripe payment gateway integration"),
         ("version", .str "1.0.0"),
         ("author", .str "Paymenter"),
         ("type", .str "gateway")]

/-- Stripe.get_config: the literal schema list returned by the method. -/
def Stripe.get_config (_self : ExtInstance) (_h : Heap) (_values : Option Value) : Value :=
  .list
    [.dict [("name", .str "secret_key"), ("type", .str "password"),
            ("label", .str "Secret Key"),
            ("description", .str "Stripe secret key (sk_...)"),
            ("required", .bool true)],
     .dict [("name", .str "publishable_key"), ("type", .str "text"),
            ("label", .str "Publishable Key"),
            ("description", .str "Stripe publishable key (pk_...)"),
            ("required", .bool true)],
     .dict [("name", .str "webhook_secret"), ("type", .str "password"),
            ("label", .str "Webhook Secret"),
            ("description", .str "Stripe webhook signing secret"),
            ("required", .bool false)],
     .dict [("name", .str "mode"), ("type", .str "select"),
            ("label", .str "Mode"),
            ("description", .str "Payment or subscription mode"),
            ("options", .list
              [.dict [("value", .str "payment"), ("label", .str "One-time payment")],
               .dict [("value", .str "subscription"), ("label", .str "Subscription")]]),
            ("default", .str "payment"), ("required", .bool true)]]

/-- DiscordNotifications.get_metadata (the method reads nothing from `self`). -/
def DiscordNotifications.get_metadata (_self : ExtInstance) (_h : Heap) : Value :=
  .dict [("name", .str "Discord Notifications"),
         ("description", .str "Send notifications to Discord via webhooks"),
         ("version", .str "1.0.0"),
         ("author", .str "Paymenter"),
         ("type", .str "notification")]

/-- DiscordNotifications.get_config: the literal schema list returned by the
method. -/
def DiscordNotifications.get_config (_self : ExtInstance) (_h : Heap) (_values : Option Value) : Value :=
  .list
    [.dict [("name", .str "webhook_url"), ("type", .str "text"),
            ("label", .str "Webhook URL"),
            ("description", .str "Discord webhook URL"),
            ("required", .bool true)],
     .dict [("name", .str "username"), ("type", .str "text"),
            ("label", .str "Bot Username"),
            ("description", .str "Username to display for the bot"),
            ("default", .str "Paymenter"), ("required", .bool false)],
     .dict [("name", .str "avatar_url"), ("type", .str "text"),
            ("label", .str "Avatar URL"),
            ("description", .str "URL of the avatar image"),
            ("required", .bool false)],
     .dict [("name", .str "notify_new_user"), ("type", .str "boolean"),
            ("label", .str "Notify on New User"),
            ("description", .str "Send notification when a new user registers"),
            ("default", .bool true)],
     .dict [("name", .str "notify_new_order"), ("type", .str "boolean"),
            ("label", .str "Notify on New Order"),
            ("description", .str "Send notification when a new order is placed"),
            ("default", .bool true)],
     .dict [("name", .str "notify_payment"), ("type", .str "boolean"),
            ("label", .str "Notify on Payment"),
            ("description", .str "Send notification when a payment is received"),
            ("default", .bool true)],
     .dict [("name", .str "notify_ticket"), ("type", .str "boolean"),
            ("label", .str "Notify on New Ticket"),
            ("description", .str "Send notification when a new ticket is created"),
            ("default", .bool true)]]

/-- Dynamic dispatch of `instance.get_metadata()` over the shipped classes. -/
def ExtInstance.get_metadata (i : ExtInstance) (h : Heap) : Value :=
  match i.cls with
  | .proxmox => Proxmox.get_metadata i h
  | .stripe => Stripe.get_metadata i h
  | .discordNotifications => DiscordNotifications.get_metadata i h

/-- Dynamic dispatch of `instance.get_config(values)` over the shipped
classes. -/
def ExtInstance.get_config (i : ExtInstance) (h : Heap) (values : Option Value) : Value :=
  match i.cls with
  | .proxmox => Proxmox.get_config i h values
  | .stripe => Stripe.get_config i h values
  | .discordNotifications => DiscordNotifications.get_config i h values

/-- Response of a query endpoint: a value, or an `HTTPException` with status
code and detail. -/
inductive ApiResult (α : Type) where
  | ok (value : α)
  | httpError (statusCode : Nat) (detail : String)

/-- Endpoint GET /extensions/ : `extension_manager.list_extensions()`. -/
def list_all_extensions (env : Env) (m : ExtensionManager) :
    ExtensionManager × ApiResult (List (String × List String)) :=
  let p := list_extensions env m none
  (p.1, .ok p.2)

/-- Endpoint GET /extensions/\x7bcategory\x7d : reject categories outside
servers/gateways/others with HTTP 400, else delegate to
`list_extensions(category)`. -/
def list_extensions_by_category (env : Env) (m : ExtensionManager) (category : String) :
    ExtensionManager × ApiResult (List (String × List String)) :=
  if category ∉ (["servers", "gateways", "others"] : List String) then
    (m, .httpError 400 "Invalid category. Must be one of: servers, gateways, others")
  else
    let p := list_extensions env m (some category)
    (p.1, .ok p.2)

/-- Endpoint GET /extensions/\x7bcategory\x7d/\x7bname\x7d/metadata :
`get_extension(category, name)` with no config, HTTP 404 when it returns
`None`, else the instance's metadata. -/
def get_extension_metadata (env : Env) (m : ExtensionManager) (h : Heap)
    (category name : String) : ExtensionManager × Heap × ApiResult Value :=
  match get_extension env m h category name none with
  | (m1, h1, some ext) => (m1, h1, .ok (ext.get_metadata h1))
  | (m1, h1, none) =>
      (m1, h1, .httpError 404 ("Extension " ++ category ++ "/" ++ name ++ " not found"))

/-- Endpoint GET /extensions/\x7bcategory\x7d/\x7bname\x7d/config :
`get_extension(category, name)` with no config, HTTP 404 when it returns
`None`, else the instance's config schema (called without current values). -/
def get_extension_config (env : Env) (m : ExtensionManager) (h : Heap)
    (category name : String) : ExtensionManager × Heap × ApiResult Value :=
  match get_extension env m h category name none with
  | (m1, h1, some ext) => (m1, h1, .ok (ext.get_config h1 none))
  | (m1, h1, none) =>
      (m1, h1, .httpError 404 ("Extension " ++ category ++ "/" ++ name ++ " not found"))

/-- Attribute list of the imported module
`app.extensions.servers.Proxmox.proxmox`, in `dir(module)` (sorted) order:
the typing aliases, the `Proxmox` class, the imported `ServerExtension` base
(excluded by the discovery filter), dunder attributes and the imported
`httpx` module. -/
def proxmoxModuleAttrs : List (String × PyAttr) :=
  [("Any", .other), ("Dict", .other), ("List", .other),
   ("Proxmox", .extClass .proxmox), ("ServerExtension", .abstractBase),
   ("__builtins__", .other), ("__doc__", .other), ("__file__", .other),
   ("__loader__", .other), ("__name__", .other), ("__package__", .other),
   ("__spec__", .other), ("httpx", .other)]

/-- Attribute list of `app.extensions.gateways.Stripe.stripe` in sorted
order. -/
def stripeModuleAttrs : List (String × PyAttr) :=
  [("Any", .other), ("Dict", .other), ("GatewayExtension", .abstractBase),
   ("List", .other), ("Stripe", .extClass .stripe),
   ("__builtins__", .other), ("__doc__", .other), ("__file__", .other),
   ("__loader__", .other), ("__name__", .other), ("__package__", .other),
   ("__spec__", .other), ("httpx", .other)]

/-- Attribute list of
`app.extensions.others.DiscordNotifications.discordnotifications` in sorted
order. -/
def discordModuleAttrs : List (String × PyAttr) :=
  [("Any", .other), ("Dict", .other),
   ("DiscordNotifications", .extClass .discordNotifications),
   ("List", .other), ("OtherExtension", .abstractBase),
   ("__builtins__", .other), ("__doc__", .other), ("__file__", .other),
   ("__loader__", .other), ("__name__", .other), ("__package__", .other),
   ("__spec__", .other), ("httpx", .other)]

/-- The repository's actual extension tree: servers/Proxmox,
gateways/Stripe, others/DiscordNotifications, each a directory whose module
imports successfully. -/
def realEnv : Env := fun category =>
  if category == "servers" then
    some [{ name := "Proxmox", isDir := true, imported := .ok proxmoxModuleAttrs }]
  else if category == "gateways" then
    some [{ name := "Stripe", isDir := true, imported := .ok stripeModuleAttrs }]
  else if category == "others" then
    some [{ name := "DiscordNotifications", isDir := true, imported := .ok discordModuleAttrs }]
  else none

/-- The manager state after discovery over the repository's extension tree. -/
def realState : ExtensionManager := (load_extensions realEnv ExtensionManager.init).1

/-- Service model instance as the server extensions use it: its id and the
`service_config` dict. -/
structure Service where
  id : Int
  service_config : Dict

/-- The f-string `"/nodes/\x7bnode\x7d/qemu/\x7bvmid\x7d"` built by
`Proxmox.terminate` for the deletion request (the stop request appends
`"/status/stop"` to it). -/
def proxmoxVmUrl (self : ExtInstance) (h : Heap) (service : Service) : String :=
  "/nodes/" ++ (self.config h "node" Value.null).pyStr ++ "/qemu/"
    ++ (strGetD service.service_config "vmid" Value.null).pyStr

/-- Proxmox.terminate, with `self.request` abstracted as the oracle `req`
from (url, method) to the request's outcome (its internals are httpx network
I/O): read `node` and `vmid`, raise when `vmid` is falsy, issue the stop
request inside `try: ... except: pass` (its outcome is discarded whether it
succeeds or raises), then issue the DELETE whose failure propagates, and on
success return the success dict. -/
def Proxmox.terminate (req : String → String → Except PyExc Value)
    (self : ExtInstance) (h : Heap) (service : Service) : Except PyExc Value :=
  let _node := self.config h "node" Value.null
  let vmid := strGetD service.service_config "vmid" Value.null
  if !vmid.truthy then
    .error (.exception "VM ID not found in service configuration")
  else
    let _stopOutcome := req (proxmoxVmUrl self h service ++ "/status/stop") "POST"
    match req (proxmoxVmUrl self h service) "DELETE" with
    | .error e => .error e
    | .ok result =>
        .ok (.dict [("success", .bool true),
                    ("message", .str ("VM " ++ vmid.pyStr ++ " terminated successfully")),
                    ("data", result)])

/-- GatewayExtension.refund, the base-class default inherited by any gateway
extension that does not override it:
`raise NotImplementedError("Refund not supported by this gateway")`. -/
def GatewayExtension.refund (_self : ExtInstance) (_h : Heap) (_transaction : Value) :
    Except PyExc Value :=
  .error (.notImplementedError "Refund not supported by this gateway")

/-- Python `s.split(sep)` for a one-character separator, on the character
list. -/
def pySplitAux (sep : Char) : List Char → List Char → List (List Char)
  | [], acc => [acc.reverse]
  | c :: cs, acc =>
      if c == sep then acc.reverse :: pySplitAux sep cs []
      else pySplitAux sep cs (c :: acc)

/-- Python `s.split(sep)` for a one-character separator (note
`"".split(sep) == [""]`). -/
def pySplit (s : String) (sep : Char) : List String :=
  (pySplitAux sep s.data []).map (fun l => ⟨l⟩)

/-- Python `dict(item.split('=') for item in signature.split(','))`: each
comma-separated item must split on `=` into exactly two parts, else `dict`
raises a ValueError; later duplicate keys override earlier ones. -/
def buildSigParts (signature : String) : Except PyExc (List (String × String)) :=
  (pySplit signature ',').foldlM
    (fun d item =>
      match pySplit item '=' with
      | [k, v] => Except.ok (strSet d k v)
      | _ => Except.error (.valueError "dictionary update sequence element has wrong length"))
    []

/-- An inbound webhook HTTP request as the gateway sees it: headers and raw
body (`request.body`, decoded as UTF-8 text). -/
structure PyRequest where
  headers : List (String × String)
  body : String

/-- The signature-verification block of `Stripe.webhook`, with HMAC-SHA256
abstracted as the oracle `hm` from (key, message) to the hex digest (its
internals are the hmac/hashlib libraries): parse the `Stripe-Signature`
header into parts, recompute the signature over
`f"\x7btimestamp\x7d.\x7bpayload\x7d"` with the webhook secret, and raise
`Exception("Invalid webhook signature")` unless the recomputed digest is
among the `v1` signatures.  A non-string secret raises when `.encode` is
looked up on it. -/
def Stripe.verifySignature (hm : String → String → String) (secretV : Value)
    (request : PyRequest) : Except PyExc Unit :=
  match secretV with
  | .str secret =>
      let signature := strGetD request.headers "Stripe-Signature" ""
      let payload := request.body
      match buildSigParts signature with
      | .error e => .error e
      | .ok sigParts =>
          let timestamp := strGet sigParts "t"
          let signatures := pySplit (strGetD sigParts "v1" "") ','
          let signedPayload := (match timestamp with
                                | some t => t
                                | none => "None") ++ "." ++ payload
          let expectedSig := hm secret signedPayload
          if expectedSig ∉ signatures then .error (.exception "Invalid webhook signature")
          else .ok ()
  | _ => .error (.attributeError "object has no attribute encode")

/-- Python `v.get(key, default)` on a parsed JSON value: defined for dicts,
an AttributeError on any other value. -/
def pyGetMethod (v : Value) (key : String) (default : Value) : Except PyExc Value :=
  match v with
  | .dict kvs => .ok (strGetD kvs key default)
  | _ => .error (.attributeError "object has no attribute get")

/-- Stripe.webhook, with the hmac digest (`hm`) and `json.loads`
(`jsonLoads`) abstracted as library oracles: read `webhook_secret` from the
instance config; verify the signature only when the secret is truthy
(`if webhook_secret:`), propagating any verification failure; then parse the
body as JSON, read the event type, and return the paid result for
`checkout.session.completed` (with the invoice id from
`event.get('data', ...).get('object', ...).get('metadata', ...)`), else the
generic processed result. -/
def Stripe.webhook (hm : String → String → String)
    (jsonLoads : String → Except PyExc Value)
    (self : ExtInstance) (h : Heap) (request : PyRequest) : Except PyExc Value := do
  let webhookSecret := self.config h "webhook_secret" Value.null
  if webhookSecret.truthy then Stripe.verifySignature hm webhookSecret request
  let event ← jsonLoads request.body
  let eventType ← pyGetMethod event "type" Value.null
  if Value.eqStr eventType "checkout.session.completed" then
    let dataV ← pyGetMethod event "data" (Value.dict [])
    let objV ← pyGetMethod dataV "object" (Value.dict [])
    let metaV ← pyGetMethod objV "metadata" (Value.dict [])
    let invoiceId ← pyGetMethod metaV "invoice_id" Value.null
    pure (.dict [("success", .bool true), ("event", eventType),
                 ("invoice_id", invoiceId), ("status", .str "paid")])
  else
    pure (.dict [("success", .bool true), ("event", eventType),
                 ("status", .str "processed")])

/-- N sequential `load_extensions()` calls on one fresh registry, summing the
discovery-pass counter over the calls. -/
def loadN (env : Env) : Nat → ExtensionManager × Nat
  | 0 => (ExtensionManager.init, 0)
  | n + 1 =>
      let p := loadN env n
      let q := load_extensions env p.1
      (q.1, p.2 + q.2)

/-- A heap with no allocated dict objects. -/
def Heap.empty : Heap := ⟨[]⟩

/-- A heap whose single dict object (reference 0) is the caller-supplied
nonempty configuration mapping of the C5 scenario. -/
def c5Heap : Heap := ⟨[[("k", Value.int 1)]]⟩

/-- First `get_extension("gateways", "stripe", cfg)` call of the C5
scenario, with `cfg` the nonempty dict at reference 0. -/
def c5Call1 : ExtensionManager × Heap × Option ExtInstance :=
  get_extension realEnv realState c5Heap "gateways" "stripe" (some 0)

/-- Second `get_extension("gateways", "stripe", cfg)` call of the C5
scenario, on the state and heap left by the first call, with the same dict
object `cfg`. -/
def c5Call2 : ExtensionManager × Heap × Option ExtInstance :=
  get_extension realEnv c5Call1.1 c5Call1.2.1 "gateways" "stripe" (some 0)

/-- Mutation of the first instance's bound configuration view
(`instance1._config["k"] = 2` through its reference). -/
def c5MutatedHeap : Heap :=
  Heap.set c5Call2.2.1 0 (strSet (Heap.get c5Call2.2.1 0) "k" (Value.int 2))

/-- Network oracle of the C6 witness scenario: the preliminary stop request
raises, the deletion request succeeds. -/
def c6Req : String → String → Except PyExc Value :=
  fun _url method =>
    if method == "DELETE" then .ok Value.null
    else .error (.exception "Proxmox API Error: VM stop failed")

/-- Service of the C6 witness scenario, with vmid 100 in its
service_config. -/
def c6Service : Service := { id := 1, service_config := [("vmid", .int 100)] }

/-- Proxmox instance of the C6 witness scenario, bound to the config dict at
reference 0. -/
def c6Inst : ExtInstance := { cls := .proxmox, configRef := 0 }

/-- Heap of the C6 witness scenario: the instance's configuration names the
node. -/
def c6Heap : Heap := ⟨[[("node", .str "pve")]]⟩

/-- Stripe instance of the C8 scenario, bound to the config dict at
reference 0. -/
def c8Inst : ExtInstance := { cls := .stripe, configRef := 0 }

/-- Heap of the C8 counterexample: the instance's configuration is empty, so
no `webhook_secret` is configured. -/
def c8Heap : Heap := ⟨[[]]⟩

/-- Raw webhook request of the C8 scenario: a `Stripe-Signature` header whose
`v1` signature is not the digest the shared-secret HMAC would produce, and a
body that is the valid JSON event text \x7b"type": "charge.succeeded"\x7d,
exactly what `json.loads` parses to the charge.succeeded event dict. -/
def c8Request : PyRequest :=
  { headers := [("Stripe-Signature", "t=1,v1=deadbeef")],
    body := "\x7b\"type\": \"charge.succeeded\"\x7d" }

/-- HMAC-SHA256 oracle of the C8 scenario; on every input its hex digest
differs from the `deadbeef` signature the request carries. -/
def c8Hmac : String → String → String := fun _key _msg => "feedface"

/-- json.loads oracle of the C8 scenario, agreeing with the real json.loads
on every input this development evaluates it at: the scenario's valid JSON
body parses to the charge.succeeded event dict, and any other string is
treated as malformed and raises JSONDecodeError (a ValueError subclass). -/
def c8Json : String → Except PyExc Value :=
  fun s =>
    if s == "\x7b\"type\": \"charge.succeeded\"\x7d" then
      .ok (.dict [("type", .str "charge.succeeded")])
    else .error (.valueError "Expecting value: line 1 column 1 (char 0)")

/-- Heap of the C8 amended-claim witness: the instance's configuration does
hold a webhook secret. -/
def c8SecretHeap : Heap := ⟨[[("webhook_secret", .str "whsec_abc")]]⟩

lemma load_extensions_of_loaded (env : Env) (m : ExtensionManager) (hm : m.loaded = true) :
    load_extensions env m = (m, 0) := by
  simp [load_extensions, hm]

lemma loaded_after_load_extensions (env : Env) (m : ExtensionManager) :
    ((load_extensions env m).1).loaded = true := by
  cases hm : m.loaded <;> simp [load_extensions, hm]

lemma loadN_one (env : Env) : loadN env 1 = load_extensions env ExtensionManager.init := by
  simp [loadN]

/-- C1: load_extensions is idempotent — across N ≥ 1 sequential calls on one
fresh registry the discovery pass (the per-category directory enumeration)
runs exactly once, and every call after the first leaves the manager state,
name index included, exactly as the first call left it. -/
theorem load_extensions_discovery_exactly_once (env : Env) (n : Nat) (hn : 1 ≤ n) :
    (loadN env n).2 = 1 ∧ (loadN env n).1 = (loadN env 1).1 := by
  induction n with
  | zero => exact absurd hn (by omega)
  | succ k ih =>
    rcases Nat.eq_zero_or_pos k with hk | hk
    · subst hk
      refine ⟨?_, rfl⟩
      have hinit : (ExtensionManager.init).loaded = false := rfl
      simp [loadN, load_extensions, hinit]
    · obtain ⟨ihc, ihs⟩ := ih hk
      have hloaded : ((loadN env k).1).loaded = true := by
        rw [ihs, loadN_one]
        exact loaded_after_load_extensions env ExtensionManager.init
      constructor
      · show ((loadN env k).2) + ((load_extensions env (loadN env k).1).2) = 1
        rw [load_extensions_of_loaded env _ hloaded, ihc]
        rfl
      · show (load_extensions env (loadN env k).1).1 = (loadN env 1).1
        rw [load_extensions_of_loaded env _ hloaded, ihs]

/-- C1 witness: three sequential calls on the repository's environment
perform one discovery pass and end in the state of a single call. -/
theorem load_extensions_discovery_exactly_once_witness :
    1 ≤ 3 ∧ ((loadN realEnv 3).2 = 1 ∧ (loadN realEnv 3).1 = (loadN realEnv 1).1) :=
  ⟨by omega, load_extensions_discovery_exactly_once realEnv 3 (by omega)⟩

lemma get_extension_miss (env : Env) (m : ExtensionManager) (h : Heap)
    (category name : String) (cfg : Option Nat) (hm : m.loaded = true)
    (hmiss : strGet (m.extensions.get category) (pyLower name) = none) :
    get_extension env m h category name cfg = (m, h, none) := by
  simp [get_extension, hm, hmiss]

/-- C2: for a (category, name) pair absent from the index of a loaded
registry, get_extension returns None (for any supplied configuration), and
the metadata and config-schema endpoints answer HTTP 404 rather than raising
an internal error. -/
theorem get_extension_absent_and_endpoints_404 (env : Env) (m : ExtensionManager)
    (h : Heap) (category name : String) (cfg : Option Nat)
    (hm : m.loaded = true)
    (hmiss : strGet (m.extensions.get category) (pyLower name) = none) :
    (get_extension env m h category name cfg).2.2 = none ∧
    (get_extension_metadata env m h category name).2.2 =
      .httpError 404 ("Extension " ++ category ++ "/" ++ name ++ " not found") ∧
    (get_extension_config env m h category name).2.2 =
      .httpError 404 ("Extension " ++ category ++ "/" ++ name ++ " not found") := by
  refine ⟨by rw [get_extension_miss env m h category name cfg hm hmiss], ?_, ?_⟩
  · simp [get_extension_metadata, get_extension_miss env m h category name none hm hmiss]
  · simp [get_extension_config, get_extension_miss env m h category name none hm hmiss]

/-- C2 witness: on the loaded repository registry, the pair
(servers, mockvm) is absent, get_extension returns None and both query
endpoints answer 404. -/
theorem get_extension_absent_and_endpoints_404_witness :
    (get_extension realEnv realState Heap.empty "servers" "mockvm" none).2.2 = none ∧
    (get_extension_metadata realEnv realState Heap.empty "servers" "mockvm").2.2 =
      .httpError 404 "Extension servers/mockvm not found" ∧
    (get_extension_config realEnv realState Heap.empty "servers" "mockvm").2.2 =
      .httpError 404 "Extension servers/mockvm not found" :=
  get_extension_absent_and_endpoints_404 realEnv realState Heap.empty "servers" "mockvm"
    none (by decide) (by decide)

/-- C3: lookup is case-insensitive — when the index of a loaded registry
holds a class under the lowercasing of a registered name s, get_extension
hits (constructs and returns an instance of that class) for every query
string n with the same lowercasing. -/
theorem get_extension_case_insensitive (env : Env) (m : ExtensionManager) (h : Heap)
    (category s n : String) (cls : ExtClass) (cfg : Option Nat)
    (hm : m.loaded = true)
    (hreg : strGet (m.extensions.get category) (pyLower s) = some cls)
    (hn : pyLower n = pyLower s) :
    ∃ h2 inst, get_extension env m h category n cfg = (m, h2, some inst) ∧ inst.cls = cls := by
  refine ⟨(pyOrFreshEmpty (pyOrFreshEmpty h cfg).1 (some (pyOrFreshEmpty h cfg).2)).1,
          { cls := cls,
            configRef := (pyOrFreshEmpty (pyOrFreshEmpty h cfg).1 (some (pyOrFreshEmpty h cfg).2)).2 },
          ?_, rfl⟩
  simp [get_extension, hm, hn, hreg]

/-- C3 witness: gateways/Stripe is registered under "stripe"; both the query
"STRIPE" and the query "stripe" hit and return a Stripe instance. -/
theorem get_extension_case_insensitive_witness :
    (∃ h2 inst,
       get_extension realEnv realState Heap.empty "gateways" "STRIPE" none =
         (realState, h2, some inst) ∧ inst.cls = ExtClass.stripe) ∧
    (∃ h2 inst,
       get_extension realEnv realState Heap.empty "gateways" "stripe" none =
         (realState, h2, some inst) ∧ inst.cls = ExtClass.stripe) :=
  ⟨get_extension_case_insensitive realEnv realState Heap.empty "gateways" "Stripe" "STRIPE"
     ExtClass.stripe none (by decide) (by decide) (by decide),
   get_extension_case_insensitive realEnv realState Heap.empty "gateways" "Stripe" "stripe"
     ExtClass.stripe none (by decide) (by decide) (by decide)⟩

/-- C4 counterexample: the empty string is a category outside the recognized
set, yet at the registry layer `list_extensions("")` does not yield the
single-entry mapping from that category to an empty sequence — python
truthiness (`if category:`) treats "" as no filter, so all three categories
come back. -/
theorem list_extensions_empty_category_counterexample :
    ("" ∈ (["servers", "gateways", "others"] : List String)) = False ∧
    (list_extensions realEnv realState (some "")).2 =
      [("servers", ["proxmox"]), ("gateways", ["stripe"]),
       ("others", ["discordnotifications"])] ∧
    (list_extensions realEnv realState (some "")).2 ≠ [("", ([] : List String))] := by
  refine ⟨by simp, by decide, by decide⟩

/-- C4 (amended): the query layer rejects a category outside
servers/gateways/others with HTTP 400 and succeeds on a recognized one; at
the registry layer an unrecognized NON-EMPTY category yields the single-entry
mapping from it to an empty sequence, while the empty string is treated as an
absent filter (python truthiness) and yields all three categories. -/
theorem category_listing_validation (env : Env) (m : ExtensionManager) (category : String) :
    (category ∉ (["servers", "gateways", "others"] : List String) →
       (list_extensions_by_category env m category).2 =
         .httpError 400 "Invalid category. Must be one of: servers, gateways, others") ∧
    (category ∈ (["servers", "gateways", "others"] : List String) →
       ∃ r, (list_extensions_by_category env m category).2 = .ok r) ∧
    (category ∉ (["servers", "gateways", "others"] : List String) → category ≠ "" →
       (list_extensions env m (some category)).2 = [(category, [])]) := by
  refine ⟨fun hout => by simp [list_extensions_by_category, hout], ?_, ?_⟩
  · intro hin
    exact ⟨(list_extensions env m (some category)).2,
           by simp [list_extensions_by_category, hin]⟩
  · intro hout hne
    have h1 : (category == "servers") = false := by
      simp only [List.mem_cons] at hout; push_neg at hout
      simp [hout.1]
    have h2 : (category == "gateways") = false := by
      simp only [List.mem_cons] at hout; push_neg at hout
      simp [hout.2.1]
    have h3 : (category == "others") = false := by
      simp only [List.mem_cons] at hout; push_neg at hout
      simp [hout.2.2.1]
    have hget : ∀ idx : ExtIndex, idx.get category = [] := by
      intro idx; simp [ExtIndex.get, h1, h2, h3]
    have hne2 : (category == "") = false := by simp [hne]
    simp [list_extensions, hne2, hget]

/-- C4 witness: the unrecognized category "invalid" is rejected with HTTP
400 at the endpoint, yields the single-entry empty mapping at the registry
layer, and the recognized category "servers" succeeds. -/
theorem category_listing_validation_witness :
    (list_extensions_by_category realEnv realState "invalid").2 =
      .httpError 400 "Invalid category. Must be one of: servers, gateways, others" ∧
    (list_extensions realEnv realState (some "invalid")).2 = [("invalid", [])] ∧
    (∃ r, (list_extensions_by_category realEnv realState "servers").2 = .ok r) :=
  ⟨(category_listing_validation realEnv realState "invalid").1 (by decide),
   (category_listing_validation realEnv realState "invalid").2.2 (by decide) (by decide),
   (category_listing_validation realEnv realState "servers").2.1 (by decide)⟩

/-- C9 counterexample: a supplied filter does not always produce a
single-entry mapping — with the empty-string filter (falsy in python, so
`if category:` falls through) the registry returns all three categories. -/
theorem list_extensions_empty_filter_counterexample :
    ((list_extensions realEnv realState (some "")).2).length = 3 ∧
    ((list_extensions realEnv realState (some "")).2).length ≠ 1 := by
  refine ⟨by decide, by decide⟩

/-- C9 (amended): with no filter, list_extensions returns exactly the three
known categories as keys in their fixed insertion order — a category with
zero discovered entries keeps its key with an empty sequence — and with a
NON-EMPTY filter it returns a single-entry mapping for that category only
(the empty-string filter behaves like no filter). -/
theorem list_extensions_key_structure (env : Env) (m : ExtensionManager) (category : String) :
    ((list_extensions env m none).2).map Prod.fst = ["servers", "gateways", "others"] ∧
    (list_extensions (fun _ => none) ExtensionManager.init none).2 =
      [("servers", []), ("gateways", []), ("others", [])] ∧
    (category ≠ "" →
       ∃ names, (list_extensions env m (some category)).2 = [(category, names)]) := by
  refine ⟨?_, by decide, ?_⟩
  · simp [list_extensions, ExtIndex.items]
  · intro hne
    have hne2 : (category == "") = false := by simp [hne]
    exact ⟨((if m.loaded then m else (load_extensions env m).1).extensions.get category).map
             (fun e => e.1),
           by simp [list_extensions, hne2]⟩

/-- C9 witness: on the loaded repository registry the no-filter listing has
exactly the three category keys, and the filter "gateways" returns a
single-entry mapping. -/
theorem list_extensions_key_structure_witness :
    ((list_extensions realEnv realState none).2).map Prod.fst =
      ["servers", "gateways", "others"] ∧
    (∃ names, (list_extensions realEnv realState (some "gateways")).2 =
      [("gateways", names)]) :=
  ⟨(list_extensions_key_structure realEnv realState "gateways").1,
   (list_extensions_key_structure realEnv realState "gateways").2.2 (by decide)⟩

lemma Heap.get_set_ne (h : Heap) (r1 r2 : Nat) (d : Dict) (hne : r1 ≠ r2) :
    (h.set r1 d).get r2 = h.get r2 := by
  simp [Heap.set, Heap.get, List.getD_eq_getElem?_getD, List.getElem?_set_ne hne]

lemma heap_get_alloc_empty (h : Heap) :
    (⟨h.cells ++ [[]]⟩ : Heap).get h.cells.length = [] := by
  simp [Heap.get, List.getD_eq_getElem?_getD, List.getElem?_concat_length]

lemma get_extension_none_cfg (env : Env) (m : ExtensionManager) (h : Heap)
    (category name : String) (cls : ExtClass) (hm : m.loaded = true)
    (hhit : strGet (m.extensions.get category) (pyLower name) = some cls) :
    get_extension env m h category name none =
      (m, ⟨h.cells ++ [[], []]⟩, some { cls := cls, configRef := h.cells.length + 1 }) := by
  have halloc1 : pyOrFreshEmpty h none = (⟨h.cells ++ [[]]⟩, h.cells.length) := rfl
  have halloc2 :
      pyOrFreshEmpty (⟨h.cells ++ [[]]⟩ : Heap) (some h.cells.length) =
        (⟨(h.cells ++ [[]]) ++ [[]]⟩, (h.cells ++ [[]]).length) := by
    simp [pyOrFreshEmpty, heap_get_alloc_empty, Heap.alloc]
  simp [get_extension, hm, hhit, halloc1, halloc2, List.append_assoc]

/-- C5 counterexample: constructing two instances from the SAME nonempty
configuration mapping makes them alias it (`self._config = config or ...`
stores the caller's dict object), so mutating the configuration view bound to
the first instance changes what the second instance's config accessor
returns: for the shared mapping at reference 0 holding k=1, both instances
bind reference 0, the second reads 1 before the mutation through the first,
and 2 after it. -/
theorem get_extension_shared_config_counterexample :
    c5Call1.2.2 = some { cls := ExtClass.stripe, configRef := 0 } ∧
    c5Call2.2.2 = some { cls := ExtClass.stripe, configRef := 0 } ∧
    ExtInstance.config { cls := ExtClass.stripe, configRef := 0 } c5Call2.2.1 "k" Value.null =
      Value.int 1 ∧
    ExtInstance.config { cls := ExtClass.stripe, configRef := 0 } c5MutatedHeap "k" Value.null =
      Value.int 2 ∧
    Value.int 2 ≠ Value.int 1 := by
  refine ⟨rfl, rfl, rfl, rfl, by simp⟩

/-- C5 (amended): instance independence holds for the configurations the
query layer and host pass by default — when no configuration mapping (or an
empty, hence falsy, one) is supplied, each construction allocates a fresh
`_config` dict, so two instances from two get_extension calls bind distinct
dict objects and mutating the view bound to the first leaves every read
through the second unchanged; when the same NONEMPTY mapping object is
supplied to both calls, the instances alias it and mutation through one is
visible through the other. -/
theorem get_extension_fresh_config_independent (env : Env) (m : ExtensionManager)
    (h : Heap) (category name : String) (m1 m2 : ExtensionManager) (h1 h2 : Heap)
    (i1 i2 : ExtInstance) (d : Dict) (k : String) (dv : Value)
    (hm : m.loaded = true)
    (hc1 : get_extension env m h category name none = (m1, h1, some i1))
    (hc2 : get_extension env m1 h1 category name none = (m2, h2, some i2)) :
    i1.configRef ≠ i2.configRef ∧
    ExtInstance.config i2 (h2.set i1.configRef d) k dv = ExtInstance.config i2 h2 k dv := by
  rcases hlook : strGet (m.extensions.get category) (pyLower name) with _ | cls
  · rw [get_extension_miss env m h category name none hm hlook] at hc1
    simp at hc1
  · rw [get_extension_none_cfg env m h category name cls hm hlook] at hc1
    simp only [Prod.mk.injEq, Option.some.injEq] at hc1
    obtain ⟨hm1, hh1, hi1⟩ := hc1
    subst hm1; subst hh1; subst hi1
    rw [get_extension_none_cfg env m _ category name cls hm hlook] at hc2
    simp only [Prod.mk.injEq, Option.some.injEq] at hc2
    obtain ⟨hm2, hh2, hi2⟩ := hc2
    subst hh2; subst hi2
    have hlen : ((⟨h.cells ++ [[], []]⟩ : Heap).cells).length = h.cells.length + 2 := by
      simp
    constructor
    · simp only [hlen]
      omega
    · have hne : h.cells.length + 1 ≠ h.cells.length + 2 + 1 := by omega
      simp only [ExtInstance.config, hlen]
      rw [Heap.get_set_ne _ _ _ _ hne]

/-- C5 witness: two no-config get_extension calls for servers/proxmox on the
loaded repository registry bind distinct fresh config dicts (references 1 and
3), and writing through the first instance's dict leaves the second
instance's reads unchanged. -/
theorem get_extension_fresh_config_independent_witness :
    ({ cls := ExtClass.proxmox, configRef := 1 } : ExtInstance).configRef ≠
      ({ cls := ExtClass.proxmox, configRef := 3 } : ExtInstance).configRef ∧
    ExtInstance.config { cls := ExtClass.proxmox, configRef := 3 }
        ((⟨[[], [], [], []]⟩ : Heap).set 1 [("x", Value.int 5)]) "x" Value.null =
      ExtInstance.config { cls := ExtClass.proxmox, configRef := 3 }
        ⟨[[], [], [], []]⟩ "x" Value.null :=
  get_extension_fresh_config_independent realEnv realState Heap.empty "servers" "proxmox"
    realState realState ⟨[[], []]⟩ ⟨[[], [], [], []]⟩
    { cls := ExtClass.proxmox, configRef := 1 } { cls := ExtClass.proxmox, configRef := 3 }
    [("x", Value.int 5)] "x" Value.null (by decide) rfl rfl

/-- C6: Proxmox.terminate swallows a failure of the preliminary stop request
but not of the deletion request — with the vmid present, its outcome is the
deletion request's outcome (success dict on ok, the same error on failure),
and it is entirely insensitive to what the stop request did. -/
theorem proxmox_terminate_tolerates_stop_failure
    (req req2 : String → String → Except PyExc Value)
    (self : ExtInstance) (h : Heap) (service : Service)
    (hv : (strGetD service.service_config "vmid" Value.null).truthy = true) :
    (∀ v, req (proxmoxVmUrl self h service) "DELETE" = .ok v →
       Proxmox.terminate req self h service =
         .ok (.dict [("success", .bool true),
                     ("message", .str ("VM "
                        ++ (strGetD service.service_config "vmid" Value.null).pyStr
                        ++ " terminated successfully")),
                     ("data", v)])) ∧
    (∀ e, req (proxmoxVmUrl self h service) "DELETE" = .error e →
       Proxmox.terminate req self h service = .error e) ∧
    (req (proxmoxVmUrl self h service) "DELETE" = req2 (proxmoxVmUrl self h service) "DELETE" →
       Proxmox.terminate req self h service = Proxmox.terminate req2 self h service) := by
  refine ⟨?_, ?_, ?_⟩
  · intro v hdel
    simp [Proxmox.terminate, hv, hdel]
  · intro e hdel
    simp [Proxmox.terminate, hv, hdel]
  · intro hsame
    simp [Proxmox.terminate, hv, hsame]

/-- C6 witness: with the stop request simulated to fail and the deletion
succeeding, terminate on the vmid-100 service still returns the success
dict. -/
theorem proxmox_terminate_tolerates_stop_failure_witness :
    c6Req (proxmoxVmUrl c6Inst c6Heap c6Service ++ "/status/stop") "POST" =
      .error (.exception "Proxmox API Error: VM stop failed") ∧
    Proxmox.terminate c6Req c6Inst c6Heap c6Service =
      .ok (.dict [("success", .bool true),
                  ("message", .str "VM 100 terminated successfully"),
                  ("data", Value.null)]) :=
  ⟨rfl,
   (proxmox_terminate_tolerates_stop_failure c6Req c6Req c6Inst c6Heap c6Service
      (by decide)).1 Value.null rfl⟩

/-- C7: the base GatewayExtension.refund, inherited by any gateway extension
that does not implement refund, fails with NotImplementedError — an error
class distinguishable from a bare Exception — for every transaction. -/
theorem gateway_refund_unsupported_operation (self : ExtInstance) (h : Heap)
    (transaction : Value) :
    GatewayExtension.refund self h transaction =
      .error (.notImplementedError "Refund not supported by this gateway") ∧
    ∀ msg, GatewayExtension.refund self h transaction ≠ .error (.exception msg) := by
  refine ⟨rfl, ?_⟩
  intro msg hcon
  simp [GatewayExtension.refund] at hcon

/-- C8 counterexample: a Stripe gateway instance with no webhook_secret
configured processes a raw request whose signature does not verify — the
signature check against any secret fails on this request (the recomputed
digest is not among the supplied v1 signatures, and the instance's own
secret, None, cannot even be encoded), yet webhook, whose body is valid
JSON that `json.loads` parses to a charge.succeeded event, returns the
processed result instead of failing, because verification only runs
`if webhook_secret:`. -/
theorem stripe_webhook_unverified_counterexample :
    Stripe.verifySignature c8Hmac (Value.str "whsec_abc") c8Request =
      .error (.exception "Invalid webhook signature") ∧
    Stripe.verifySignature c8Hmac
        (ExtInstance.config c8Inst c8Heap "webhook_secret" Value.null) c8Request =
      .error (.attributeError "object has no attribute encode") ∧
    Stripe.webhook c8Hmac c8Json c8Inst c8Heap c8Request =
      .ok (.dict [("success", .bool true), ("event", .str "charge.succeeded"),
                  ("status", .str "processed")]) :=
  ⟨rfl, rfl, rfl⟩

/-- C8 (amended): Stripe.webhook verifies the request signature (HMAC-SHA256
over the timestamp-concatenated body with the shared secret) before
processing only when a webhook_secret is configured (truthy): for every
instance whose configured secret is truthy and every raw request whose
signature verification fails, webhook propagates that failure and returns no
processed result; an instance with no configured secret processes requests
without any verification. -/
theorem stripe_webhook_rejects_bad_signature (hm : String → String → String)
    (jsonLoads : String → Except PyExc Value) (self : ExtInstance) (h : Heap)
    (request : PyRequest) (e : PyExc)
    (hsec : (ExtInstance.config self h "webhook_secret" Value.null).truthy = true)
    (hfail : Stripe.verifySignature hm
        (ExtInstance.config self h "webhook_secret" Value.null) request = .error e) :
    Stripe.webhook hm jsonLoads self h request = .error e := by
  simp [Stripe.webhook, hsec, hfail, Bind.bind, Except.bind]

/-- C8 witness: an instance with the secret whsec_abc configured rejects the
request whose v1 signature deadbeef differs from the recomputed digest —
webhook fails with the invalid-signature error. -/
theorem stripe_webhook_rejects_bad_signature_witness :
    Stripe.webhook c8Hmac c8Json c8Inst c8SecretHeap c8Request =
      .error (.exception "Invalid webhook signature") :=
  stripe_webhook_rejects_bad_signature c8Hmac c8Json c8Inst c8SecretHeap c8Request
    (.exception "Invalid webhook signature") (by decide) rfl

lemma get_metadata_cls_only (i j : ExtInstance) (h1 h2 : Heap) (hc : i.cls = j.cls) :
    ExtInstance.get_metadata i h1 = ExtInstance.get_metadata j h2 := by
  obtain ⟨c1, r1⟩ := i
  obtain ⟨c2, r2⟩ := j
  have hcc : c1 = c2 := hc
  subst hcc
  cases c1 <;> rfl

lemma get_config_cls_only (i j : ExtInstance) (h1 h2 : Heap) (v1 v2 : Option Value)
    (hc : i.cls = j.cls) :
    ExtInstance.get_config i h1 v1 = ExtInstance.get_config j h2 v2 := by
  obtain ⟨c1, r1⟩ := i
  obtain ⟨c2, r2⟩ := j
  have hcc : c1 = c2 := hc
  subst hcc
  cases c1 <;> rfl

lemma get_extension_hit_cls (env : Env) (m : ExtensionManager) (h : Heap)
    (category name : String) (cfg : Option Nat) (m2 : ExtensionManager) (h3 : Heap)
    (inst : ExtInstance) (hm : m.loaded = true)
    (hhit : get_extension env m h category name cfg = (m2, h3, some inst)) :
    strGet (m.extensions.get category) (pyLower name) = some inst.cls := by
  rcases hlook : strGet (m.extensions.get category) (pyLower name) with _ | cls
  · rw [get_extension_miss env m h category name cfg hm hlook] at hhit
    simp at hhit
  · simp only [get_extension, hm, hlook, if_true] at hhit
    simp only [Prod.mk.injEq, Option.some.injEq] at hhit
    rw [← hhit.2.2]

/-- C10: for the shipped extension implementations, get_metadata and the
config schema are functions of the class alone — two instances of one class
under any two heaps, bound configurations and `values` arguments agree — so
the query endpoints, which construct the instance with an empty
configuration, report exactly what the extension reports under any stored
configuration. -/
theorem metadata_and_schema_config_insensitive (env : Env) (m : ExtensionManager)
    (i1 i2 : ExtInstance) (h1 h2 hq hc : Heap) (v1 v2 : Option Value)
    (category name : String) (cfg : Option Nat)
    (m2 : ExtensionManager) (h3 : Heap) (inst : ExtInstance)
    (hcls : i1.cls = i2.cls)
    (hm : m.loaded = true)
    (hhit : get_extension env m hc category name cfg = (m2, h3, some inst)) :
    ExtInstance.get_metadata i1 h1 = ExtInstance.get_metadata i2 h2 ∧
    ExtInstance.get_config i1 h1 v1 = ExtInstance.get_config i2 h2 v2 ∧
    (get_extension_metadata env m hq category name).2.2 =
      .ok (ExtInstance.get_metadata inst hq) ∧
    (get_extension_config env m hq category name).2.2 =
      .ok (ExtInstance.get_config inst hq none) := by
  have hlook := get_extension_hit_cls env m hc category name cfg m2 h3 inst hm hhit
  have hchar := get_extension_none_cfg env m hq category name inst.cls hm hlook
  refine ⟨get_metadata_cls_only i1 i2 h1 h2 hcls,
          get_config_cls_only i1 i2 h1 h2 v1 v2 hcls, ?_, ?_⟩
  · simp only [get_extension_metadata, hchar]
    exact congrArg ApiResult.ok (get_metadata_cls_only _ inst _ hq rfl)
  · simp only [get_extension_config, hchar]
    exact congrArg ApiResult.ok (get_config_cls_only _ inst _ hq none none rfl)

/-- C10 witness: a Stripe instance configured with a secret key and a bare
Stripe instance report equal metadata and equal config schemas, and the
metadata and config endpoints for gateways/Stripe report exactly those. -/
theorem metadata_and_schema_config_insensitive_witness :
    ExtInstance.get_metadata { cls := ExtClass.stripe, configRef := 0 }
        ⟨[[("secret_key", Value.str "sk_a")]]⟩ =
      ExtInstance.get_metadata { cls := ExtClass.stripe, configRef := 7 } Heap.empty ∧
    ExtInstance.get_config { cls := ExtClass.stripe, configRef := 0 }
        ⟨[[("secret_key", Value.str "sk_a")]]⟩ (some (Value.dict [])) =
      ExtInstance.get_config { cls := ExtClass.stripe, configRef := 7 } Heap.empty none ∧
    (get_extension_metadata realEnv realState Heap.empty "gateways" "Stripe").2.2 =
      .ok (ExtInstance.get_metadata { cls := ExtClass.stripe, configRef := 1 } Heap.empty) ∧
    (get_extension_config realEnv realState Heap.empty "gateways" "Stripe").2.2 =
      .ok (ExtInstance.get_config { cls := ExtClass.stripe, configRef := 1 } Heap.empty none) :=
  metadata_and_schema_config_insensitive realEnv realState
    { cls := ExtClass.stripe, configRef := 0 } { cls := ExtClass.stripe, configRef := 7 }
    ⟨[[("secret_key", Value.str "sk_a")]]⟩ Heap.empty Heap.empty Heap.empty
    (some (Value.dict [])) none "gateways" "Stripe" none
    realState ⟨[[], []]⟩ { cls := ExtClass.stripe, configRef := 1 }
    rfl (by decide) rfl
